import Mathlib

/-!
Shallow embedding of the BLE relay service (src/relay/main.py).

The Session (class BLERelay) is modelled as a state record; each operation is a
pure function from the state and a transport oracle (the outcome the bleak
transport produces for each transport-level call) to an `OpResult`: the Python
return-or-raise outcome, the mutated state, the frames sent on the attached
WebSocket channel, and the trace of transport-level calls issued.  Python
exceptions are `Except.error msg` carrying `str(e)`; mutations performed before
a raise persist in the returned state, exactly as in Python.
-/

namespace Relay

/-- Configuration constant SERVICE_UUID from the source. -/
def SERVICE_UUID : String := "E4DADA34-0867-8783-9F70-2CA29216C7E4"

/-- Configuration constant NOTIFY_CHAR_UUID from the source. -/
def NOTIFY_CHAR_UUID : String := "55CA1E52-7354-25DE-6AFC-B7DF1E8816AC"

/-- Configuration constant WRITE_CHAR_UUID from the source. -/
def WRITE_CHAR_UUID : String := "A010891D-F50F-44F0-901F-9A2421A9E050"

/-- Configuration constant DEVICE_NAME_PREFIX from the source ("VTR-"). -/
def VTR_NAME_PREF : String := "VTR-"

/-- A GATT characteristic as exposed by the transport (bleak characteristic object). -/
structure BLEChar where
  uuid : String
deriving DecidableEq

/-- A GATT service with its characteristics (element of client.services). -/
structure BLEService where
  uuid : String
  characteristics : List BLEChar
deriving DecidableEq

/-- The connected-device record stored in BLERelay._connected_device. -/
structure DeviceInfo where
  id : String
  name : String
deriving DecidableEq

/-- A discovered device descriptor (bleak BLEDevice): address and optional name. -/
structure BLEDeviceM where
  address : String
  name : Option String
deriving DecidableEq

/-- Advertisement data; only the rssi field is read by the source. -/
structure AdvData where
  rssi : Int
deriving DecidableEq

/-- One element of the list returned by BLERelay.scan. -/
structure ScanEntry where
  id : String
  name : String
  rssi : Option Int
deriving DecidableEq

/-- The BleakClient object held in BLERelay.client: the address it was
constructed with and its current link state (client.is_connected). -/
structure ClientHandle where
  address : String
  is_connected : Bool
deriving DecidableEq

/-- The mutable fields of class BLERelay.  The websocket is identified by an
opaque token.  The source field names carry a leading underscore
(_write_char, _notify_char, _connected_device), dropped here. -/
structure SessionState where
  client : Option ClientHandle
  websocket : Option Nat
  write_char : Option BLEChar
  notify_char : Option BLEChar
  connected_device : Option DeviceInfo
deriving DecidableEq

/-- BLERelay.__init__ : every field starts absent. -/
def initState : SessionState := ⟨none, none, none, none, none⟩

/-- Property BLERelay.is_connected: client is not None and client.is_connected. -/
def SessionState.is_connected (st : SessionState) : Bool :=
  match st.client with
  | some c => c.is_connected
  | none => false

/-- BLERelay.get_status: the connected flag and the stored device record. -/
def get_status (st : SessionState) : Bool × Option DeviceInfo :=
  (st.is_connected, st.connected_device)

/-- A push frame sent to the WebSocket client (the dicts built in the source;
for the `disconnected` event, unexpected = false models the absence of the
"unexpected" key, which is only present in the _on_disconnect callback push). -/
inductive PushEvent
  | connected (device : DeviceInfo)
  | disconnected (device : Option DeviceInfo) (unexpected : Bool)
  | notification (dataHex : String)
  | statusEv (connectedB : Bool) (device : Option DeviceInfo)
  | errorEv (msg : String)
deriving DecidableEq

/-- The result payload placed in the "data" field of a correlated response. -/
inductive ActionResult
  | scanRes (entries : List ScanEntry)
  | connectRes (device : Option DeviceInfo)
  | disconnectRes
  | writeRes
  | statusRes (connectedB : Bool) (device : Option DeviceInfo)
deriving DecidableEq

/-- A frame written to the WebSocket: correlated response, correlated error,
or an uncorrelated push. -/
inductive OutFrame
  | response (id : String) (data : ActionResult)
  | errorResponse (id : String) (error : String)
  | push (ev : PushEvent)
deriving DecidableEq

/-- A transport-level call issued to bleak, in order. -/
inductive TransportCall
  | tDiscover (timeout : Rat)
  | tConnect (address : String)
  | tDisconnect (address : String)
  | tStartNotify (address : String) (charUuid : String)
  | tWrite (address : String) (char : Option BLEChar) (data : List Nat) (ack : Bool)
deriving DecidableEq

/-- Outcome of one Session operation: Python return value or raised exception
text, resulting state, WebSocket frames sent, transport calls issued. -/
structure OpResult (α : Type) where
  res : Except String α
  st : SessionState
  out : List OutFrame
  calls : List TransportCall

/-- BLERelay._send_ws guarded by `if self.websocket:` — emits the frame when a
channel is attached (send failures are swallowed in the source, so the emitted
attempt is the observable). -/
def pushIfAttached (st : SessionState) (ev : PushEvent) : List OutFrame :=
  match st.websocket with
  | some _ => [OutFrame.push ev]
  | none => []

/-- The filter condition of the loop in BLERelay.scan:
`if device.name and device.name.startswith(DEVICE_NAME_PREFIX)`. -/
def scanGuard : Option String → Bool
  | none => false
  | some n => n != "" && n.startsWith VTR_NAME_PREF

/-- The for-loop of BLERelay.scan, accumulating `results` by append. -/
def scanLoop : List (String × BLEDeviceM × Option AdvData) → List ScanEntry → List ScanEntry
  | [], acc => acc
  | (_, device, adv) :: rest, acc =>
    scanLoop rest
      (if scanGuard device.name then
        acc ++ [⟨device.address, device.name.getD "", adv.map AdvData.rssi⟩]
      else acc)

/-- BLERelay.scan: the transport discovery outcome (BleakScanner.discover) is
given by `disc`; on success the result list is built by the filter loop. -/
def scan (disc : Except String (List (String × BLEDeviceM × Option AdvData)))
    (timeout : Rat) (st : SessionState) : OpResult (List ScanEntry) :=
  match disc with
  | .error e => ⟨.error e, st, [], [.tDiscover timeout]⟩
  | .ok items => ⟨.ok (scanLoop items []), st, [], [.tDiscover timeout]⟩

/-- The four assignments `self.client = None; self._write_char = None;
self._notify_char = None; self._connected_device = None` clearing the
connection fields. -/
def clearConn (st : SessionState) : SessionState :=
  { st with client := none, write_char := none, notify_char := none, connected_device := none }

/-- BLERelay.disconnect, with the outcome of the transport call
client.disconnect() given by `tr` (consulted only when the call is made).
If the transport call raises, the exception propagates and no field is
cleared; otherwise all connection fields are cleared and a `disconnected`
push (without unexpected flag) carrying the prior device record is emitted. -/
def disconnect (tr : Except String Unit) (st : SessionState) : OpResult Unit :=
  let device := st.connected_device
  match st.client with
  | some c =>
    if c.is_connected then
      match tr with
      | .error e => ⟨.error e, st, [], [.tDisconnect c.address]⟩
      | .ok _ =>
        ⟨.ok (), clearConn st, pushIfAttached (clearConn st) (.disconnected device false),
          [.tDisconnect c.address]⟩
    else
      ⟨.ok (), clearConn st, pushIfAttached (clearConn st) (.disconnected device false), []⟩
  | none =>
    ⟨.ok (), clearConn st, pushIfAttached (clearConn st) (.disconnected device false), []⟩

/-- ASCII lower-casing of one character (str.lower() on the ASCII uuids used
here). -/
def lowerChar (c : Char) : Char :=
  if 'A' ≤ c ∧ c ≤ 'Z' then Char.ofNat (c.toNat + 32) else c

/-- ASCII lower-casing of a string, modelling Python str.lower() on uuids. -/
def lowerStr (s : String) : String := ⟨s.data.map lowerChar⟩

/-- The inner characteristic loop of BLERelay.connect over one matching service. -/
def charLoop : List BLEChar → Option BLEChar × Option BLEChar → Option BLEChar × Option BLEChar
  | [], acc => acc
  | ch :: rest, (w, n) =>
    if lowerStr ch.uuid == lowerStr WRITE_CHAR_UUID then charLoop rest (some ch, n)
    else if lowerStr ch.uuid == lowerStr NOTIFY_CHAR_UUID then charLoop rest (w, some ch)
    else charLoop rest (w, n)

/-- The service loop of BLERelay.connect: characteristics of services matching
SERVICE_UUID update the (write, notify) pair, starting from the current field
values. -/
def findChars : List BLEService → Option BLEChar × Option BLEChar → Option BLEChar × Option BLEChar
  | [], acc => acc
  | svc :: rest, acc =>
    findChars rest
      (if lowerStr svc.uuid == lowerStr SERVICE_UUID then charLoop svc.characteristics acc else acc)

/-- Python `device_name or device_id`: a falsy device_name (None or empty
string) falls back to the identifier. -/
def pyOr (dn : Option String) (fallback : String) : String :=
  match dn with
  | none => fallback
  | some s => if s == "" then fallback else s

/-- Transport outcomes consulted during one BLERelay.connect call. -/
structure ConnectOracle where
  prevDisconnect : Except String Unit
  connectResult : Except String Unit
  linkUp : Bool
  services : List BLEService
  notifySub1 : Except String Unit
  notifySub2 : Except String Unit
  mismatchDisconnect : Except String Unit

/-- Lines 61-94 of BLERelay.connect (everything after the implicit teardown):
construct the new BleakClient (stored before connecting); await
client.connect() (error propagates, the handle stays); check is_connected
else raise "Failed to connect"; resolve the two characteristics from the
service set; if either is missing, disconnect (its transport error
propagates) and raise "Required characteristics not found"; store the device
record; start_notify on the notify then the write characteristic; push a
`connected` event if a channel is attached. -/
def connectFresh (o : ConnectOracle) (device_id : String) (device_name : Option String)
    (st : SessionState) : OpResult Unit :=
  let st1 : SessionState := { st with client := some ⟨device_id, false⟩ }
  match o.connectResult with
  | .error e => ⟨.error e, st1, [], [.tConnect device_id]⟩
  | .ok _ =>
    let st2 : SessionState := { st1 with client := some ⟨device_id, o.linkUp⟩ }
    if o.linkUp then
      match findChars o.services (st2.write_char, st2.notify_char) with
      | (some wc, some nc) =>
        let dev : DeviceInfo := ⟨device_id, pyOr device_name device_id⟩
        let st4 : SessionState :=
          { st2 with write_char := some wc, notify_char := some nc, connected_device := some dev }
        match o.notifySub1 with
        | .error e =>
          ⟨.error e, st4, [], [.tConnect device_id, .tStartNotify device_id nc.uuid]⟩
        | .ok _ =>
          match o.notifySub2 with
          | .error e =>
            ⟨.error e, st4, [],
              [.tConnect device_id, .tStartNotify device_id nc.uuid,
                .tStartNotify device_id wc.uuid]⟩
          | .ok _ =>
            ⟨.ok (), st4, pushIfAttached st4 (.connected dev),
              [.tConnect device_id, .tStartNotify device_id nc.uuid,
                .tStartNotify device_id wc.uuid]⟩
      | (w, n) =>
        let st3 : SessionState := { st2 with write_char := w, notify_char := n }
        let d1 := disconnect o.mismatchDisconnect st3
        match d1.res with
        | .error e => ⟨.error e, d1.st, d1.out, .tConnect device_id :: d1.calls⟩
        | .ok _ =>
          ⟨.error "Required characteristics not found", d1.st, d1.out,
            .tConnect device_id :: d1.calls⟩
    else
      ⟨.error "Failed to connect", st2, [], [.tConnect device_id]⟩

/-- BLERelay.connect: if a connection is currently active, an implicit
disconnect runs first (its transport error propagates and aborts the call);
then the rest of the method (connectFresh) runs on the resulting state. -/
def connect (o : ConnectOracle) (device_id : String) (device_name : Option String)
    (st : SessionState) : OpResult Unit :=
  if st.is_connected then
    let d0 := disconnect o.prevDisconnect st
    match d0.res with
    | .error e => ⟨.error e, d0.st, d0.out, d0.calls⟩
    | .ok _ =>
      let r := connectFresh o device_id device_name d0.st
      ⟨r.res, r.st, d0.out ++ r.out, d0.calls ++ r.calls⟩
  else connectFresh o device_id device_name st

/-- BLERelay._on_disconnect: the transport's unexpected-disconnect callback.
Clears every connection field and pushes a `disconnected` event with
unexpected=true carrying the previously stored device record. -/
def on_disconnect (st : SessionState) : SessionState × List OutFrame :=
  let device := st.connected_device
  (clearConn st, pushIfAttached (clearConn st) (.disconnected device true))

/-- BLERelay.write: raises "Not connected" unless a client is present and
connected; otherwise calls client.write_gatt_char(self._write_char, data,
response=True), whose transport outcome is `wr`. -/
def write (wr : Except String Unit) (data : List Nat) (st : SessionState) : OpResult Unit :=
  match st.client with
  | some c =>
    if c.is_connected then
      ⟨wr, st, [], [.tWrite c.address st.write_char data true]⟩
    else ⟨.error "Not connected", st, [], []⟩
  | none => ⟨.error "Not connected", st, [], []⟩

/-! ## The message dispatcher (websocket_endpoint) -/

/-- Value of one hex digit, as accepted by bytes.fromhex. -/
def hexDigitVal (c : Char) : Option Nat :=
  if '0' ≤ c ∧ c ≤ '9' then some (c.toNat - '0'.toNat)
  else if 'a' ≤ c ∧ c ≤ 'f' then some (c.toNat - 'a'.toNat + 10)
  else if 'A' ≤ c ∧ c ≤ 'F' then some (c.toNat - 'A'.toNat + 10)
  else none

/-- Models bytes.fromhex: two hex digits per byte, spaces allowed between
pairs; a bad or missing digit raises ValueError naming its position. -/
def fromhexAux : List Char → Nat → List Nat → Except String (List Nat)
  | [], _, acc => .ok acc
  | c :: rest, i, acc =>
    if c == ' ' then fromhexAux rest (i + 1) acc
    else
      match hexDigitVal c with
      | none => .error ("non-hexadecimal number found in fromhex() arg at position " ++ toString i)
      | some hi =>
        match rest with
        | [] => .error ("non-hexadecimal number found in fromhex() arg at position " ++ toString (i + 1))
        | c2 :: rest2 =>
          match hexDigitVal c2 with
          | none =>
            .error ("non-hexadecimal number found in fromhex() arg at position " ++ toString (i + 1))
          | some lo => fromhexAux rest2 (i + 2) (acc ++ [hi * 16 + lo])

/-- bytes.fromhex over a string. -/
def fromhex (s : String) : Except String (List Nat) := fromhexAux s.data 0 []

/-- A parsed request object: the fields the dispatcher reads via msg.get /
msg[...].  Absent keys are `none`. -/
structure Msg where
  id : Option String
  action : Option String
  timeout : Option Rat
  device_id : Option String
  device_name : Option String
  data : Option String
deriving DecidableEq

/-- One inbound text frame: either a JSON object (parsed fields), or a frame
on which json.loads / msg.get raises — carrying the exception text. -/
inductive Frame
  | invalid (err : String)
  | valid (m : Msg)
deriving DecidableEq

/-- Transport outcomes consulted while serving one request frame. -/
structure ActionOracle where
  disc : Except String (List (String × BLEDeviceM × Option AdvData))
  conn : ConnectOracle
  discTr : Except String Unit
  wr : Except String Unit

/-- Python f-string rendering of the action value in "Unknown action: ...". -/
def pyShowOpt : Option String → String
  | none => "None"
  | some s => s

/-- The inner try-block of the dispatcher loop: resolve the action name, run
the Session operation, produce the result payload (missing required keys
raise KeyError, rendered as the quoted key name, as str(KeyError) does). -/
def runAction (o : ActionOracle) (m : Msg) (st : SessionState) : OpResult ActionResult :=
  match m.action with
  | some "scan" =>
    let r := scan o.disc (m.timeout.getD 5) st
    ⟨r.res.map .scanRes, r.st, r.out, r.calls⟩
  | some "connect" =>
    match m.device_id with
    | none => ⟨.error "'device_id'", st, [], []⟩
    | some did =>
      let r := connect o.conn did m.device_name st
      ⟨r.res.map (fun _ => .connectRes r.st.connected_device), r.st, r.out, r.calls⟩
  | some "disconnect" =>
    let r := disconnect o.discTr st
    ⟨r.res.map (fun _ => .disconnectRes), r.st, r.out, r.calls⟩
  | some "write" =>
    match m.data with
    | none => ⟨.error "'data'", st, [], []⟩
    | some hex =>
      match fromhex hex with
      | .error e => ⟨.error e, st, [], []⟩
      | .ok bs =>
        let r := write o.wr bs st
        ⟨r.res.map (fun _ => .writeRes), r.st, r.out, r.calls⟩
  | some "status" => ⟨.ok (.statusRes st.is_connected st.connected_device), st, [], []⟩
  | a => ⟨.error ("Unknown action: " ++ pyShowOpt a), st, [], []⟩

/-- Python truthiness of msg.get("id"): None and "" are falsy. -/
def truthy : Option String → Bool
  | none => false
  | some s => s != ""

/-- Outcome of one iteration of the dispatcher loop: either the loop continues
(state and frames sent), or an exception escaped the per-message handler and
the loop terminates (nothing sent for that frame). -/
inductive StepOutcome
  | next (st : SessionState) (out : List OutFrame)
  | crashed (st : SessionState) (err : String)
deriving DecidableEq

/-- Whether the loop iteration ended the dispatcher loop. -/
def isCrash : StepOutcome → Bool
  | .next _ _ => false
  | .crashed _ _ => true

/-- State after the loop iteration. -/
def stepSt : StepOutcome → SessionState
  | .next st _ => st
  | .crashed st _ => st

/-- Frames sent during the loop iteration. -/
def stepOut : StepOutcome → List OutFrame
  | .next _ out => out
  | .crashed _ _ => []

/-- One iteration of the dispatcher loop on one inbound frame.  json.loads /
msg.get failures occur before the inner try and terminate the loop; inside
the inner try, a success is answered with a correlated response when the id
is truthy, and a failure with a correlated error envelope (truthy id) or an
untagged error push (falsy id). -/
def handleFrame (o : ActionOracle) (st : SessionState) (fr : Frame) : StepOutcome :=
  match fr with
  | .invalid err => .crashed st err
  | .valid m =>
    let r := runAction o m st
    match r.res with
    | .ok result =>
      if truthy m.id then .next r.st (r.out ++ [.response (m.id.getD "") result])
      else .next r.st r.out
    | .error e =>
      if truthy m.id then .next r.st (r.out ++ [.errorResponse (m.id.getD "") e])
      else .next r.st (r.out ++ [.push (.errorEv e)])

/-- Line `relay.websocket = websocket` at the top of websocket_endpoint:
attach replaces any previous attachment unconditionally. -/
def attach (st : SessionState) (ch : Nat) : SessionState := { st with websocket := some ch }

/-- The `finally: relay.websocket = None` clause run when a channel's loop
exits.  It does not inspect which channel is exiting. -/
def detachOnExit (st : SessionState) (_exiting : Nat) : SessionState :=
  { st with websocket := none }

/-- Whether an outbound frame is a correlated response (carries an id). -/
def isCorrelated : OutFrame → Bool
  | .response _ _ => true
  | .errorResponse _ _ => true
  | .push _ => false

/-- The correlation id carried by an outbound frame, if any. -/
def frameId : OutFrame → Option String
  | .response i _ => some i
  | .errorResponse i _ => some i
  | .push _ => none

/-! ## Spec-side definitions used to state the claims -/

/-- Spec side (C7): a discovered device is kept iff its display name starts
with the configured product-name prefix (a device with no name is excluded). -/
def specKeep (item : String × BLEDeviceM × Option AdvData) : Bool :=
  match item.2.1.name with
  | some n => n.startsWith VTR_NAME_PREF
  | none => false

/-- Spec side (C7): the record an included device contributes — identifier,
name and signal sample preserved, an absent sample reported as null. -/
def specEntry (item : String × BLEDeviceM × Option AdvData) : ScanEntry :=
  ⟨item.2.1.address, item.2.1.name.getD "", item.2.2.map AdvData.rssi⟩

/-! ## Concrete states and oracles used in witnesses and counterexamples -/

/-- A concrete fully-connected session state with channel 1 attached. -/
def connectedSt : SessionState :=
  ⟨some ⟨"AA", true⟩, some 1, some ⟨"w-uuid"⟩, some ⟨"n-uuid"⟩, some ⟨"AA", "VTR-1"⟩⟩

/-- A transport oracle on which everything succeeds and the device exposes
both required characteristics. -/
def okOracle : ConnectOracle :=
  ⟨.ok (), .ok (), true, [⟨SERVICE_UUID, [⟨WRITE_CHAR_UUID⟩, ⟨NOTIFY_CHAR_UUID⟩]⟩],
    .ok (), .ok (), .ok ()⟩

/-- A disconnected session state with channel 1 attached. -/
def attachedSt : SessionState := ⟨none, some 1, none, none, none⟩

/-- Oracle on which the transport-level connect raises. -/
def connRaiseOracle : ConnectOracle :=
  ⟨.ok (), .error "le connection failed", true, [], .ok (), .ok (), .ok ()⟩

/-- Oracle whose implicit-teardown transport disconnect raises. -/
def tearFailOracle : ConnectOracle :=
  ⟨.error "teardown bus error", .ok (), true,
    [⟨SERVICE_UUID, [⟨WRITE_CHAR_UUID⟩, ⟨NOTIFY_CHAR_UUID⟩]⟩], .ok (), .ok (), .ok ()⟩

/-- Oracle: the device exposes only the notify characteristic, and the
transport disconnect issued during the mismatch teardown raises. -/
def mismatchTearFailOracle : ConnectOracle :=
  ⟨.ok (), .ok (), true, [⟨SERVICE_UUID, [⟨NOTIFY_CHAR_UUID⟩]⟩],
    .ok (), .ok (), .error "gatt teardown failed"⟩

/-- A state the code itself reaches: the mismatch teardown raised, leaving the
link up with no resolved write characteristic. -/
def noWriteCharSt : SessionState := (connect mismatchTearFailOracle "X" none initState).st

/-- A dispatcher oracle on which every transport interaction succeeds. -/
def okActionOracle : ActionOracle := ⟨.ok [], okOracle, .ok (), .ok ()⟩

/-- A request with no id and an unrecognized action name. -/
def bogusMsg : Msg := ⟨none, some "bogus", none, none, none, none⟩

/-- A correlated status request. -/
def statusMsg : Msg := ⟨some "7", some "status", none, none, none, none⟩

/-! ## Helper lemmas -/

@[simp] theorem clearConn_client (st : SessionState) : (clearConn st).client = none := rfl

@[simp] theorem clearConn_websocket (st : SessionState) :
    (clearConn st).websocket = st.websocket := rfl

@[simp] theorem clearConn_write_char (st : SessionState) : (clearConn st).write_char = none := rfl

@[simp] theorem clearConn_notify_char (st : SessionState) :
    (clearConn st).notify_char = none := rfl

@[simp] theorem clearConn_connected_device (st : SessionState) :
    (clearConn st).connected_device = none := rfl

theorem scanGuard_eq_specKeep (a : String) (d : BLEDeviceM) (adv : Option AdvData) :
    scanGuard d.name = specKeep (a, d, adv) := by
  simp only [specKeep]
  cases h : d.name with
  | none => simp [scanGuard]
  | some n =>
    by_cases he : n = ""
    · subst he
      have hpref : ("".startsWith VTR_NAME_PREF) = false := by decide
      simp [scanGuard, hpref]
    · have hne : (n == "") = false := beq_eq_false_iff_ne.mpr he
      simp [scanGuard, bne, hne]

theorem scanLoop_eq (items : List (String × BLEDeviceM × Option AdvData)) (acc : List ScanEntry) :
    scanLoop items acc = acc ++ (items.filter specKeep).map specEntry := by
  induction items generalizing acc with
  | nil => simp [scanLoop]
  | cons it rest ih =>
    obtain ⟨a, d, adv⟩ := it
    rw [scanLoop, scanGuard_eq_specKeep a d adv]
    by_cases hk : specKeep (a, d, adv)
    · simp [hk, ih, specEntry, List.filter_cons]
    · simp [hk, ih, List.filter_cons]

theorem disconnect_websocket (tr : Except String Unit) (st : SessionState) :
    (disconnect tr st).st.websocket = st.websocket := by
  cases hcl : st.client with
  | none => simp [disconnect, hcl]
  | some c =>
    by_cases hic : c.is_connected
    · cases tr with
      | error e => simp [disconnect, hcl, hic]
      | ok u => simp [disconnect, hcl, hic]
    · simp [disconnect, hcl, hic]

theorem scan_out_empty (disc : Except String (List (String × BLEDeviceM × Option AdvData)))
    (timeout : Rat) (st : SessionState) : (scan disc timeout st).out = [] := by
  cases disc <;> rfl

theorem write_out_empty (wr : Except String Unit) (data : List Nat) (st : SessionState) :
    (write wr data st).out = [] := by
  cases hcl : st.client with
  | none => simp [write, hcl]
  | some c => by_cases hcc : c.is_connected = true <;> simp [write, hcl, hcc]

theorem pushIfAttached_uncorrelated (s : SessionState) (ev : PushEvent) (f : OutFrame)
    (hf : f ∈ pushIfAttached s ev) : isCorrelated f = false := by
  cases hws : s.websocket with
  | none => simp [pushIfAttached, hws] at hf
  | some ch =>
    simp [pushIfAttached, hws] at hf
    rw [hf]
    rfl

theorem truthy_some (oid : Option String) (h : truthy oid = true) :
    oid = some (oid.getD "") := by
  cases oid with
  | none => simp [truthy] at h
  | some s => rfl

theorem isconn_elim (st : SessionState) (h : st.is_connected = true) :
    ∃ c, st.client = some c ∧ c.is_connected = true := by
  cases hcl : st.client with
  | none => simp [SessionState.is_connected, hcl] at h
  | some c => exact ⟨c, rfl, by simpa [SessionState.is_connected, hcl] using h⟩

theorem disconnect_ok_conn (st : SessionState) (c : ClientHandle)
    (hcl : st.client = some c) (hcc : c.is_connected = true) :
    disconnect (.ok ()) st =
      ⟨.ok (), clearConn st,
        pushIfAttached (clearConn st) (.disconnected st.connected_device false),
        [.tDisconnect c.address]⟩ := by
  simp [disconnect, hcl, hcc]

theorem disconnect_err_conn (st : SessionState) (c : ClientHandle) (e : String)
    (hcl : st.client = some c) (hcc : c.is_connected = true) :
    disconnect (.error e) st = ⟨.error e, st, [], [.tDisconnect c.address]⟩ := by
  simp [disconnect, hcl, hcc]

theorem connectFresh_ok (o : ConnectOracle) (device_id : String) (device_name : Option String)
    (st : SessionState) (h : (connectFresh o device_id device_name st).res = .ok ()) :
    ∃ wc nc,
      o.connectResult = .ok () ∧ o.linkUp = true ∧
      findChars o.services (st.write_char, st.notify_char) = (some wc, some nc) ∧
      (connectFresh o device_id device_name st).st =
        { st with client := some ⟨device_id, true⟩, write_char := some wc,
                  notify_char := some nc,
                  connected_device := some ⟨device_id, pyOr device_name device_id⟩ } ∧
      (connectFresh o device_id device_name st).out =
        pushIfAttached
          { st with client := some ⟨device_id, true⟩, write_char := some wc,
                    notify_char := some nc,
                    connected_device := some ⟨device_id, pyOr device_name device_id⟩ }
          (.connected ⟨device_id, pyOr device_name device_id⟩) := by
  obtain ⟨pd, cr, lu, svcs, n1, n2, md⟩ := o
  cases cr with
  | error e => simp [connectFresh] at h
  | ok u =>
    cases u
    cases lu with
    | false => simp [connectFresh] at h
    | true =>
      rcases hwn : findChars svcs (st.write_char, st.notify_char) with ⟨w, n⟩
      cases w with
      | none =>
        exfalso
        simp only [connectFresh, hwn] at h
        split at h <;> (try split at h) <;> simp_all
      | some wc =>
        cases n with
        | none =>
          exfalso
          simp only [connectFresh, hwn] at h
          split at h <;> (try split at h) <;> simp_all
        | some nc =>
          cases n1 with
          | error e => simp [connectFresh, hwn] at h
          | ok u1 =>
            cases u1
            cases n2 with
            | error e => simp [connectFresh, hwn] at h
            | ok u2 =>
              refine ⟨wc, nc, rfl, rfl, rfl, ?_, ?_⟩ <;> simp [connectFresh, hwn]

theorem pushIfAttached_of_ws (st : SessionState) (ev : PushEvent) (ch : Nat)
    (h : st.websocket = some ch) : pushIfAttached st ev = [.push ev] := by
  simp [pushIfAttached, h]

theorem connectFresh_calls_head (o : ConnectOracle) (device_id : String) (dn : Option String)
    (st : SessionState) :
    ∃ rest, (connectFresh o device_id dn st).calls = .tConnect device_id :: rest := by
  obtain ⟨pd, cr, lu, svcs, n1, n2, md⟩ := o
  cases cr with
  | error e => exact ⟨[], rfl⟩
  | ok u =>
    cases u
    cases lu with
    | false => exact ⟨[], rfl⟩
    | true =>
      rcases hwn : findChars svcs (st.write_char, st.notify_char) with ⟨w, n⟩
      simp only [connectFresh, hwn]
      cases w with
      | none => cases n <;> cases md <;> exact ⟨_, rfl⟩
      | some wc =>
        cases n with
        | none => cases md <;> exact ⟨_, rfl⟩
        | some nc =>
          cases n1 with
          | error e => exact ⟨_, rfl⟩
          | ok u1 =>
            cases u1
            cases n2 with
            | error e => exact ⟨_, rfl⟩
            | ok u2 => exact ⟨_, rfl⟩

theorem connect_not_conn (o : ConnectOracle) (device_id : String) (dn : Option String)
    (st : SessionState) (hic : st.is_connected = false) :
    connect o device_id dn st = connectFresh o device_id dn st := by
  simp [connect, hic]

/-! ## Claim C7 -/

/-- Claim C7: for every transport discovery result, scan excludes every device
whose display name does not start with the configured product-name prefix
(including devices with no name), includes every device whose name does —
preserving identifier, name and signal sample (absent sample as null) — in
discovery order, and an empty result is an ok result, not an error. -/
theorem scan_filters_by_product_prefix
    (items : List (String × BLEDeviceM × Option AdvData)) (timeout : Rat) (st : SessionState) :
    (scan (.ok items) timeout st).res = .ok ((items.filter specKeep).map specEntry) ∧
    (scan (.ok items) timeout st).st = st ∧
    (scan (.ok []) timeout st).res = .ok ([] : List ScanEntry) := by
  refine ⟨?_, rfl, rfl⟩
  simp [scan, scanLoop_eq]

/-! ## Claim C8 -/

/-- Claim C8: every invocation of the transport's unexpected-disconnect
callback while a channel is attached emits exactly one disconnected push with
unexpected = true carrying the previously-active device record, and leaves the
Session fully disconnected (client, both cached characteristics and the device
record all cleared), the channel attachment untouched. -/
theorem unexpected_disconnect_push_and_clear (st : SessionState) (ch : Nat)
    (h : st.websocket = some ch) :
    (on_disconnect st).2 = [.push (.disconnected st.connected_device true)] ∧
    (on_disconnect st).1.client = none ∧
    (on_disconnect st).1.write_char = none ∧
    (on_disconnect st).1.notify_char = none ∧
    (on_disconnect st).1.connected_device = none ∧
    (on_disconnect st).1.websocket = st.websocket := by
  simp [on_disconnect, pushIfAttached, h]

/-- Witness for C8 at the concrete connected state. -/
theorem unexpected_disconnect_push_and_clear_witness :
    (on_disconnect connectedSt).2 = [.push (.disconnected (some ⟨"AA", "VTR-1"⟩) true)] ∧
    (on_disconnect connectedSt).1.client = none ∧
    (on_disconnect connectedSt).1.write_char = none ∧
    (on_disconnect connectedSt).1.notify_char = none ∧
    (on_disconnect connectedSt).1.connected_device = none ∧
    (on_disconnect connectedSt).1.websocket = some 1 :=
  unexpected_disconnect_push_and_clear connectedSt 1 rfl

/-! ## Claim C10 -/

/-- Claim C10: for every connect call that succeeds with no display name
supplied, the stored connected-device record — as returned by status and as
carried in the connected push and the connect response — has its name field
equal to the device identifier, never absent. -/
theorem connect_without_name_stores_id (o : ConnectOracle) (device_id : String)
    (st : SessionState) (h : (connect o device_id none st).res = .ok ()) :
    (connect o device_id none st).st.connected_device = some ⟨device_id, device_id⟩ ∧
    get_status (connect o device_id none st).st = (true, some ⟨device_id, device_id⟩) ∧
    (st.websocket.isSome = true →
      OutFrame.push (.connected ⟨device_id, device_id⟩) ∈ (connect o device_id none st).out) := by
  by_cases hic : st.is_connected = true
  · obtain ⟨c, hcl, hcc⟩ := isconn_elim st hic
    cases hpd : o.prevDisconnect with
    | error e =>
      simp [connect, hic, hpd, disconnect_err_conn st c e hcl hcc] at h
    | ok u =>
      cases u
      simp only [connect, hic, if_true] at h ⊢
      rw [hpd, disconnect_ok_conn st c hcl hcc] at h ⊢
      simp only [] at h ⊢
      obtain ⟨wc, nc, hcr, hlu, hfc, hst, hout⟩ :=
        connectFresh_ok o device_id none (clearConn st) h
      refine ⟨?_, ?_, ?_⟩
      · simp [hst, pyOr]
      · simp [get_status, SessionState.is_connected, hst, pyOr]
      · intro hws
        obtain ⟨ch, hch⟩ := Option.isSome_iff_exists.mp hws
        simp [hout, pushIfAttached, hch, pyOr]
  · simp [connect, hic] at h ⊢
    obtain ⟨wc, nc, hcr, hlu, hfc, hst, hout⟩ := connectFresh_ok o device_id none st h
    refine ⟨?_, ?_, ?_⟩
    · simp [hst, pyOr]
    · simp [get_status, SessionState.is_connected, hst, pyOr]
    · intro hws
      obtain ⟨ch, hch⟩ := Option.isSome_iff_exists.mp hws
      simp [hout, pushIfAttached, hch, pyOr]

/-- Witness for C10: a concrete successful connect with no display name. -/
theorem connect_without_name_stores_id_witness :
    (connect okOracle "AA:BB" none attachedSt).st.connected_device = some ⟨"AA:BB", "AA:BB"⟩ ∧
    get_status (connect okOracle "AA:BB" none attachedSt).st = (true, some ⟨"AA:BB", "AA:BB"⟩) ∧
    (attachedSt.websocket.isSome = true →
      OutFrame.push (.connected ⟨"AA:BB", "AA:BB"⟩)
        ∈ (connect okOracle "AA:BB" none attachedSt).out) :=
  connect_without_name_stores_id okOracle "AA:BB" attachedSt rfl

/-! ## Claim C2 -/

/-- Claim C2 counterexample: when the transport-level connect fails, the
freshly constructed client object stays in the connection-handle field
(self.client is assigned before the await that raises), so the Session is not
left with connection handle, device record and characteristic handles all
absent, contrary to the claim. -/
theorem connect_transport_failure_keeps_handle :
    (connect connRaiseOracle "AA" none initState).res = .error "le connection failed" ∧
    (connect connRaiseOracle "AA" none initState).st.client = some ⟨"AA", false⟩ ∧
    (connect connRaiseOracle "AA" none initState).st.client.isSome = true :=
  ⟨rfl, rfl, rfl⟩

/-- Claim C2 amended: starting from a state with no established link and no
cached characteristics or device record — (a) if the transport connect raises,
the error propagates, the device record and characteristic handles stay
absent and the Session reports not-connected, but the connection-handle field
retains the unestablished client; (b) likewise when the connect call returns
without an established link, with error "Failed to connect"
(ConnectionError); (c) if the link comes up but either required
characteristic is missing and the teardown transport call succeeds, the error
is "Required characteristics not found" (ProtocolMismatchError), the Session
is fully disconnected — all three fields absent — and the transport
disconnect was issued, so no dangling transport connection remains. -/
theorem connect_failure_disconnected_amended (o : ConnectOracle) (device_id : String)
    (dn : Option String) (st : SessionState)
    (hw : st.write_char = none) (hn : st.notify_char = none)
    (hd : st.connected_device = none) (hic : st.is_connected = false) :
    (∀ e, o.connectResult = .error e →
      (connect o device_id dn st).res = .error e ∧
      (connect o device_id dn st).st.client = some ⟨device_id, false⟩ ∧
      (connect o device_id dn st).st.write_char = none ∧
      (connect o device_id dn st).st.notify_char = none ∧
      (connect o device_id dn st).st.connected_device = none ∧
      (connect o device_id dn st).st.is_connected = false) ∧
    (o.connectResult = .ok () → o.linkUp = false →
      (connect o device_id dn st).res = .error "Failed to connect" ∧
      (connect o device_id dn st).st.client = some ⟨device_id, false⟩ ∧
      (connect o device_id dn st).st.write_char = none ∧
      (connect o device_id dn st).st.notify_char = none ∧
      (connect o device_id dn st).st.connected_device = none ∧
      (connect o device_id dn st).st.is_connected = false) ∧
    (o.connectResult = .ok () → o.linkUp = true →
      ((findChars o.services (none, none)).1 = none ∨ (findChars o.services (none, none)).2 = none) →
      o.mismatchDisconnect = .ok () →
      (connect o device_id dn st).res = .error "Required characteristics not found" ∧
      (connect o device_id dn st).st.client = none ∧
      (connect o device_id dn st).st.write_char = none ∧
      (connect o device_id dn st).st.notify_char = none ∧
      (connect o device_id dn st).st.connected_device = none ∧
      TransportCall.tDisconnect device_id ∈ (connect o device_id dn st).calls) := by
  rw [connect_not_conn o device_id dn st hic]
  obtain ⟨pd, cr, lu, svcs, n1, n2, md⟩ := o
  refine ⟨?_, ?_, ?_⟩
  · rintro e hcr
    subst hcr
    simp [connectFresh, hw, hn, hd, SessionState.is_connected]
  · rintro hcr hlu
    subst hcr
    subst hlu
    simp [connectFresh, hw, hn, hd, SessionState.is_connected]
  · rintro hcr hlu hmiss hmd
    subst hcr
    subst hlu
    subst hmd
    simp only [connectFresh, hw, hn]
    rcases hwn : findChars svcs (none, none) with ⟨w, n⟩
    cases w with
    | none => cases n <;> simp [disconnect]
    | some wc =>
      cases n with
      | none => simp [disconnect]
      | some nc => rcases hmiss with hm | hm <;> simp [hwn] at hm

/-- Witness for the amended C2 at a concrete failing connect. -/
theorem connect_failure_disconnected_amended_witness :
    (connect connRaiseOracle "AA" none initState).res = .error "le connection failed" ∧
    (connect connRaiseOracle "AA" none initState).st.client = some ⟨"AA", false⟩ ∧
    (connect connRaiseOracle "AA" none initState).st.write_char = none ∧
    (connect connRaiseOracle "AA" none initState).st.notify_char = none ∧
    (connect connRaiseOracle "AA" none initState).st.connected_device = none ∧
    (connect connRaiseOracle "AA" none initState).st.is_connected = false :=
  (connect_failure_disconnected_amended connRaiseOracle "AA" none initState
    rfl rfl rfl rfl).1 "le connection failed" rfl

/-! ## Claim C3 -/

/-- Claim C3 counterexample: there is no try/except around the implicit
teardown, so a transport error during it propagates to the caller — it is
surfaced, not merely logged — no new transport connection is opened (no
tConnect call appears) and the prior connection state is left in place. -/
theorem connect_teardown_error_surfaces :
    (connect tearFailOracle "NEW" none connectedSt).res = .error "teardown bus error" ∧
    (connect tearFailOracle "NEW" none connectedSt).calls = [.tDisconnect "AA"] ∧
    (connect tearFailOracle "NEW" none connectedSt).st = connectedSt :=
  ⟨rfl, rfl, rfl⟩

/-- Claim C3 amended: a connect issued while a connection is active performs
the full teardown of the prior connection first — when the teardown transport
call succeeds, the transport trace starts with the old client's disconnect
followed by the new connect; but a transport error raised during that
teardown is surfaced to the caller and aborts the new connection attempt,
leaving the prior connection state unchanged and the new transport connection
unopened. -/
theorem connect_implicit_teardown (o : ConnectOracle) (device_id : String) (dn : Option String)
    (st : SessionState) (c : ClientHandle)
    (hcl : st.client = some c) (hcc : c.is_connected = true) :
    (o.prevDisconnect = .ok () →
      ∃ rest, (connect o device_id dn st).calls =
        .tDisconnect c.address :: .tConnect device_id :: rest) ∧
    (∀ e, o.prevDisconnect = .error e →
      (connect o device_id dn st).res = .error e ∧
      (connect o device_id dn st).st = st ∧
      (connect o device_id dn st).calls = [.tDisconnect c.address] ∧
      (connect o device_id dn st).out = []) := by
  have hic : st.is_connected = true := by simp [SessionState.is_connected, hcl, hcc]
  constructor
  · intro hpd
    obtain ⟨rest, hr⟩ := connectFresh_calls_head o device_id dn (clearConn st)
    refine ⟨rest, ?_⟩
    simp only [connect, hic, if_true]
    rw [hpd, disconnect_ok_conn st c hcl hcc]
    simp [hr]
  · rintro e hpd
    simp [connect, hic, hpd, disconnect_err_conn st c e hcl hcc]

/-- Witness for the amended C3 at a concrete connected state. -/
theorem connect_implicit_teardown_witness :
    ∃ rest, (connect okOracle "NEW" none connectedSt).calls =
      .tDisconnect "AA" :: .tConnect "NEW" :: rest :=
  (connect_implicit_teardown okOracle "NEW" none connectedSt ⟨"AA", true⟩ rfl rfl).1 rfl

/-! ## Claim C4 -/

/-- Claim C4 counterexample: when the transport-level disconnect raises, the
clearing assignments after the await never run — nothing is cleared, no
disconnected push is emitted, and the error propagates — so disconnect does
not clear state on every invocation regardless of transport outcome. -/
theorem disconnect_transport_error_keeps_state :
    (disconnect (.error "dbus timeout") connectedSt).res = .error "dbus timeout" ∧
    (disconnect (.error "dbus timeout") connectedSt).st = connectedSt ∧
    (disconnect (.error "dbus timeout") connectedSt).out = [] :=
  ⟨rfl, rfl, rfl⟩

/-- Claim C4 amended: disconnect is safe when already disconnected, and on
every invocation in which the transport-level disconnect succeeds or is
skipped it clears the connection handle, the device record and both cached
characteristic handles and pushes one disconnected event without the
unexpected flag, carrying the previously stored device record, to the
attached channel if one exists; when the transport disconnect raises, however,
the error propagates with nothing cleared and nothing pushed. -/
theorem disconnect_clears_amended (tr : Except String Unit) (st : SessionState)
    (h : st.is_connected = false ∨ tr = .ok ()) :
    (disconnect tr st).res = .ok () ∧
    (disconnect tr st).st.client = none ∧
    (disconnect tr st).st.write_char = none ∧
    (disconnect tr st).st.notify_char = none ∧
    (disconnect tr st).st.connected_device = none ∧
    (disconnect tr st).st.websocket = st.websocket ∧
    (disconnect tr st).out =
      (match st.websocket with
        | some _ => [.push (.disconnected st.connected_device false)]
        | none => []) := by
  rcases h with h | h
  · cases hcl : st.client with
    | none => simp [disconnect, hcl, pushIfAttached]
    | some c =>
      have hcc : c.is_connected = false := by
        simpa [SessionState.is_connected, hcl] using h
      simp [disconnect, hcl, hcc, pushIfAttached]
  · subst h
    cases hcl : st.client with
    | none => simp [disconnect, hcl, pushIfAttached]
    | some c =>
      by_cases hcc : c.is_connected = true
      · simp [disconnect, hcl, hcc, pushIfAttached]
      · simp [disconnect, hcl, hcc, pushIfAttached]

/-- Witness for the amended C4: a successful transport disconnect from the
concrete connected state with a channel attached. -/
theorem disconnect_clears_amended_witness :
    (disconnect (.ok ()) connectedSt).res = .ok () ∧
    (disconnect (.ok ()) connectedSt).st.client = none ∧
    (disconnect (.ok ()) connectedSt).st.write_char = none ∧
    (disconnect (.ok ()) connectedSt).st.notify_char = none ∧
    (disconnect (.ok ()) connectedSt).st.connected_device = none ∧
    (disconnect (.ok ()) connectedSt).st.websocket = some 1 ∧
    (disconnect (.ok ()) connectedSt).out =
      [.push (.disconnected (some ⟨"AA", "VTR-1"⟩) false)] :=
  disconnect_clears_amended (.ok ()) connectedSt (Or.inr rfl)

/-! ## Claim C5 -/

/-- Claim C5 counterexample: in a reachable state with an active connection
but no resolved write characteristic, write does not fail with
NotConnectedError — the write is issued to the transport against the absent
characteristic handle and the transport's own error surfaces instead. -/
theorem write_missing_char_not_notconnected :
    noWriteCharSt.client = some ⟨"X", true⟩ ∧
    noWriteCharSt.write_char = none ∧
    (write (.error "Characteristic None was not found!") [1] noWriteCharSt).res =
      .error "Characteristic None was not found!" ∧
    (write (.error "Characteristic None was not found!") [1] noWriteCharSt).calls =
      [.tWrite "X" none [1] true] ∧
    "Characteristic None was not found!" ≠ "Not connected" :=
  ⟨rfl, rfl, rfl, rfl, by decide⟩

/-- Claim C5 amended: write fails with NotConnectedError exactly when no
connection is active — for every byte payload including the empty one —
issuing no transport call and leaving state untouched; the cached write
characteristic is not checked: whenever a connection is active, the write is
issued against the cached handle (possibly absent) with delivery
acknowledgment requested, and its outcome is the transport's. -/
theorem write_not_connected_amended (wr : Except String Unit) (data : List Nat)
    (st : SessionState) :
    (st.is_connected = false →
      (write wr data st).res = .error "Not connected" ∧
      (write wr data st).st = st ∧ (write wr data st).calls = []) ∧
    (∀ c, st.client = some c → c.is_connected = true →
      (write wr data st).res = wr ∧
      (write wr data st).calls = [.tWrite c.address st.write_char data true]) := by
  constructor
  · intro h
    cases hcl : st.client with
    | none => simp [write, hcl]
    | some c =>
      have hcc : c.is_connected = false := by
        simpa [SessionState.is_connected, hcl] using h
      simp [write, hcl, hcc]
  · rintro c hcl hcc
    simp [write, hcl, hcc]

/-- Witness for the amended C5: an empty payload against the fresh
disconnected state. -/
theorem write_not_connected_amended_witness :
    (write (.ok ()) [] initState).res = .error "Not connected" ∧
    (write (.ok ()) [] initState).st = initState ∧
    (write (.ok ()) [] initState).calls = [] :=
  (write_not_connected_amended (.ok ()) [] initState).1 rfl

/-! ## Claim C9 -/

/-- Claim C9 counterexample: the detach in the endpoint's finally clause does
not check which channel is exiting — after channel 2 supersedes channel 1,
channel 1's loop exit clears an attachment that points at channel 2. -/
theorem detach_clears_superseded_attachment :
    (attach (attach initState 1) 2).websocket = some 2 ∧
    (detachOnExit (attach (attach initState 1) 2) 1).websocket = none :=
  ⟨rfl, rfl⟩

/-- Claim C9 amended: attach replaces any previous attachment unconditionally
and has no other effect (no close of the previous channel, no change to the
connection fields); detachment on a channel's loop exit clears the attachment
unconditionally, even when the attachment currently points at a different,
newer channel. -/
theorem attach_replaces_detach_unconditional (st : SessionState) (a b c : Nat) :
    (attach (attach st a) b).websocket = some b ∧
    (attach st a).client = st.client ∧
    (attach st a).write_char = st.write_char ∧
    (attach st a).notify_char = st.notify_char ∧
    (attach st a).connected_device = st.connected_device ∧
    detachOnExit st c = { st with websocket := none } :=
  ⟨rfl, rfl, rfl, rfl, rfl, rfl⟩

/-! ## Claim C1 -/

/-- Claim C1 counterexample: an unparseable envelope raises outside the
per-request try/except, so the dispatcher loop terminates and nothing at all
is sent to the client — instead of the failure being surfaced as an error
message without crashing the loop. -/
theorem invalid_frame_crashes_loop :
    handleFrame okActionOracle initState (.invalid "Expecting value: line 1 column 1 (char 0)") =
      .crashed initState "Expecting value: line 1 column 1 (char 0)" ∧
    isCrash (handleFrame okActionOracle initState
      (.invalid "Expecting value: line 1 column 1 (char 0)")) = true ∧
    stepOut (handleFrame okActionOracle initState
      (.invalid "Expecting value: line 1 column 1 (char 0)")) = [] :=
  ⟨rfl, rfl, rfl⟩

/-- Claim C1 amended: a frame that parses to a JSON object never terminates
the dispatcher loop — any failure there (from the Session operation, an
unrecognized action name, a missing required field, or an invalid hex
payload) is surfaced as the error's message text, in a correlated error
envelope when the envelope carried a truthy id and as an untagged error push
otherwise; an unparseable frame, however, escapes the per-request handler and
terminates the loop with nothing sent. -/
theorem parsed_frames_never_crash (o : ActionOracle) (m : Msg) (st : SessionState) :
    isCrash (handleFrame o st (.valid m)) = false ∧
    (∀ e, (runAction o m st).res = .error e →
      stepOut (handleFrame o st (.valid m)) =
        (runAction o m st).out ++
          [if truthy m.id then .errorResponse (m.id.getD "") e else .push (.errorEv e)]) ∧
    (∀ e2, handleFrame o st (.invalid e2) = .crashed st e2) := by
  refine ⟨?_, ?_, fun e2 => rfl⟩
  · cases hres : (runAction o m st).res with
    | error e => by_cases ht : truthy m.id = true <;> simp [handleFrame, hres, isCrash, ht]
    | ok r => by_cases ht : truthy m.id = true <;> simp [handleFrame, hres, isCrash, ht]
  · rintro e hres
    by_cases ht : truthy m.id = true <;> simp [handleFrame, hres, stepOut, ht]

/-- Witness for the amended C1: an unknown action with no id does not crash
the loop and surfaces as an untagged error push with the message text. -/
theorem parsed_frames_never_crash_witness :
    isCrash (handleFrame okActionOracle initState (.valid bogusMsg)) = false ∧
    stepOut (handleFrame okActionOracle initState (.valid bogusMsg)) =
      [.push (.errorEv "Unknown action: bogus")] := by
  have h := (parsed_frames_never_crash okActionOracle bogusMsg initState).2.1
    "Unknown action: bogus" rfl
  exact ⟨(parsed_frames_never_crash okActionOracle bogusMsg initState).1, by simpa using h⟩

/-! ## Claim C6 -/

theorem disconnect_out_uncorrelated (tr : Except String Unit) (st : SessionState) :
    ∀ f ∈ (disconnect tr st).out, isCorrelated f = false := by
  intro f hf
  cases hcl : st.client with
  | none =>
    simp only [disconnect, hcl] at hf
    exact pushIfAttached_uncorrelated _ _ f hf
  | some c =>
    by_cases hcc : c.is_connected = true
    · cases tr with
      | error e => simp [disconnect, hcl, hcc] at hf
      | ok u =>
        simp only [disconnect, hcl, hcc, eq_self_iff_true, if_true] at hf
        exact pushIfAttached_uncorrelated _ _ f hf
    · simp only [disconnect, hcl, hcc, if_false] at hf
      exact pushIfAttached_uncorrelated _ _ f hf

theorem connectFresh_out_uncorrelated (o : ConnectOracle) (device_id : String)
    (dn : Option String) (st : SessionState) :
    ∀ f ∈ (connectFresh o device_id dn st).out, isCorrelated f = false := by
  intro f hf
  obtain ⟨pd, cr, lu, svcs, n1, n2, md⟩ := o
  cases cr with
  | error e => simp [connectFresh] at hf
  | ok u =>
    cases u
    cases lu with
    | false => simp [connectFresh] at hf
    | true =>
      rcases hwn : findChars svcs (st.write_char, st.notify_char) with ⟨w, n⟩
      simp only [connectFresh, hwn] at hf
      cases w with
      | none =>
        cases n <;> cases md <;> simp only [disconnect] at hf <;>
          first
          | exact pushIfAttached_uncorrelated _ _ f hf
          | simp at hf
      | some wc =>
        cases n with
        | none =>
          cases md <;> simp only [disconnect] at hf <;>
            first
            | exact pushIfAttached_uncorrelated _ _ f hf
            | simp at hf
        | some nc =>
          cases n1 with
          | error e => simp at hf
          | ok u1 =>
            cases u1
            cases n2 with
            | error e => simp at hf
            | ok u2 => exact pushIfAttached_uncorrelated _ _ f (by simpa using hf)

theorem connect_out_uncorrelated (o : ConnectOracle) (device_id : String) (dn : Option String)
    (st : SessionState) : ∀ f ∈ (connect o device_id dn st).out, isCorrelated f = false := by
  intro f hf
  by_cases hic : st.is_connected = true
  · obtain ⟨c, hcl, hcc⟩ := isconn_elim st hic
    cases hpd : o.prevDisconnect with
    | error e =>
      simp only [connect, hic, eq_self_iff_true, if_true] at hf
      rw [hpd, disconnect_err_conn st c e hcl hcc] at hf
      simp at hf
    | ok u =>
      cases u
      simp only [connect, hic, eq_self_iff_true, if_true] at hf
      rw [hpd, disconnect_ok_conn st c hcl hcc] at hf
      simp only [] at hf
      rcases List.mem_append.mp hf with h | h
      · exact pushIfAttached_uncorrelated _ _ f h
      · exact connectFresh_out_uncorrelated _ _ _ _ f h
  · rw [connect_not_conn o device_id dn st (by simpa using hic)] at hf
    exact connectFresh_out_uncorrelated _ _ _ _ f hf

theorem runAction_out_uncorrelated (o : ActionOracle) (m : Msg) (st : SessionState) :
    ∀ f ∈ (runAction o m st).out, isCorrelated f = false := by
  intro f hf
  cases hact : m.action with
  | none => simp [runAction, hact] at hf
  | some a =>
    by_cases h1 : a = "scan"
    · subst h1
      simp [runAction, hact, scan_out_empty] at hf
    by_cases h2 : a = "connect"
    · subst h2
      cases hdid : m.device_id with
      | none => simp [runAction, hact, hdid] at hf
      | some did =>
        simp only [runAction, hact, hdid] at hf
        exact connect_out_uncorrelated _ _ _ _ f hf
    by_cases h3 : a = "disconnect"
    · subst h3
      simp only [runAction, hact] at hf
      exact disconnect_out_uncorrelated _ _ f hf
    by_cases h4 : a = "write"
    · subst h4
      cases hdata : m.data with
      | none => simp [runAction, hact, hdata] at hf
      | some hex =>
        cases hhex : fromhex hex with
        | error e => simp [runAction, hact, hdata, hhex] at hf
        | ok bs => simp [runAction, hact, hdata, hhex, write_out_empty] at hf
    by_cases h5 : a = "status"
    · subst h5
      simp [runAction, hact] at hf
    · simp [runAction, hact, h1, h2, h3, h4, h5] at hf

/-- Claim C6 counterexample: an envelope carrying the correlation id "" — an
id present in the frame, but falsy under the dispatcher's truthiness test —
receives no correlated response; its failure is emitted as an untagged error
push instead. -/
theorem empty_id_gets_no_correlated_response :
    handleFrame okActionOracle initState
        (.valid ⟨some "", some "bogus", none, none, none, none⟩) =
      .next initState [.push (.errorEv "Unknown action: bogus")] ∧
    (stepOut (handleFrame okActionOracle initState
        (.valid ⟨some "", some "bogus", none, none, none, none⟩))).countP isCorrelated = 0 :=
  ⟨rfl, rfl⟩

/-- Claim C6 amended: an envelope whose id is truthy (present and non-empty)
receives exactly one correlated response — success with the result payload or
error with the message text — and that response carries the envelope's id; an
envelope with no id or with a falsy (empty-string) id never receives a
correlated response: a failure produces one untagged error push and a success
produces no response at all. -/
theorem correlation_discipline (o : ActionOracle) (m : Msg) (st : SessionState) :
    (truthy m.id = true →
      (stepOut (handleFrame o st (.valid m))).countP isCorrelated = 1 ∧
      ∃ r, stepOut (handleFrame o st (.valid m)) = (runAction o m st).out ++ [r] ∧
        isCorrelated r = true ∧ frameId r = m.id) ∧
    (truthy m.id = false →
      (stepOut (handleFrame o st (.valid m))).countP isCorrelated = 0 ∧
      (∀ e, (runAction o m st).res = .error e →
        stepOut (handleFrame o st (.valid m)) =
          (runAction o m st).out ++ [.push (.errorEv e)]) ∧
      (∀ r, (runAction o m st).res = .ok r →
        stepOut (handleFrame o st (.valid m)) = (runAction o m st).out)) := by
  have hzero : ((runAction o m st).out).countP isCorrelated = 0 :=
    List.countP_eq_zero.mpr (by
      intro a ha
      simp [runAction_out_uncorrelated o m st a ha])
  constructor
  · intro ht
    cases hres : (runAction o m st).res with
    | ok r =>
      refine ⟨?_, .response (m.id.getD "") r, ?_, rfl, ?_⟩
      · simp [handleFrame, hres, ht, stepOut, List.countP_append, hzero,
          List.countP_cons, isCorrelated]
      · simp [handleFrame, hres, ht, stepOut]
      · simp only [frameId]
        exact (truthy_some m.id ht).symm
    | error e =>
      refine ⟨?_, .errorResponse (m.id.getD "") e, ?_, rfl, ?_⟩
      · simp [handleFrame, hres, ht, stepOut, List.countP_append, hzero,
          List.countP_cons, isCorrelated]
      · simp [handleFrame, hres, ht, stepOut]
      · simp only [frameId]
        exact (truthy_some m.id ht).symm
  · intro hf
    cases hres : (runAction o m st).res with
    | ok r =>
      refine ⟨?_, ?_, ?_⟩
      · simp [handleFrame, hres, hf, stepOut, hzero]
      · rintro e he
        exact absurd he (by simp)
      · rintro r2 hr2
        simp [handleFrame, hres, hf, stepOut]
    | error e =>
      refine ⟨?_, ?_, ?_⟩
      · simp [handleFrame, hres, hf, stepOut, List.countP_append, hzero,
          List.countP_cons, isCorrelated]
      · rintro e2 he2
        have he3 : e = e2 := by simpa using he2
        subst he3
        simp [handleFrame, hres, hf, stepOut]
      · rintro r2 hr2
        exact absurd hr2 (by simp)

/-- Witness for the amended C6: a correlated status request gets exactly one
correlated response carrying its id. -/
theorem correlation_discipline_witness :
    (stepOut (handleFrame okActionOracle initState (.valid statusMsg))).countP isCorrelated = 1 ∧
    ∃ r, stepOut (handleFrame okActionOracle initState (.valid statusMsg)) =
        (runAction okActionOracle statusMsg initState).out ++ [r] ∧
      isCorrelated r = true ∧ frameId r = statusMsg.id :=
  (correlation_discipline okActionOracle statusMsg initState).1 rfl

end Relay
